import Mathlib

/-!
Shallow embedding of the refresh-and-cache account checker
(Next.js API routes and page components of the repository).

Each definition is translated from one place in the JavaScript source:
- the snapshot cache endpoint (`src/unnamed/part_003`): module cache
  `cachedData`, `fetchAndCheckAccounts`, the GET `handler`;
- the plain cache endpoint (`src/pages/api/cache.js`);
- the single-account checker (`src/pages/api/checkSingleAccount.js`);
- the page component (`src/unnamed/part_000`): `checkAccount`'s state
  updater, `findUsername`, the email/password extraction regex.

JavaScript strings are modelled as `String`, absent/undefined fields as
`Option`, epoch-millisecond times as `Int`.  String truthiness (`""` and
`undefined` are falsy) is made explicit through `strTruthy`/`jsStrOr`.
-/

/-- Truthiness of a possibly-absent JS string: `undefined` and `""` are
falsy, every other string is truthy. -/
def strTruthy : Option String → Bool
  | some s => s ≠ ""
  | none => false

/-- JS `a || b` where `a` is a possibly-absent string and `b` a string:
returns `a` when truthy, else `b`. -/
def jsStrOr (a : Option String) (b : String) : String :=
  match a with
  | some s => if s = "" then b else s
  | none => b

/-- JS `a || b` on two possibly-absent strings: `a` when truthy, else `b`
(which may itself be absent). -/
def jsOptOr (a b : Option String) : Option String :=
  match a with
  | some s => if s = "" then b else some s
  | none => b

/-! ## Parser

Embedding of the extraction regex of `src/pages/api/fetchAccounts.js`
line 15 and `src/unnamed/part_003` line 29:

  `/([A-Za-z0-9._%+-]+@[A-Za-z0-9.-]+\.[A-Za-z]{2,})[:\s]+([^\s<]+)/g`

run in the standard `while ((match = re.exec(html)) !== null)` loop.
The pattern is compiled to an explicit scanner with the JS engine's
leftmost-match and greedy-with-backtracking semantics:
- the local part, domain run, TLD run, separator run and secret run are
  greedy character-class runs;
- `\.` can only match inside the maximal `[A-Za-z0-9.-]+` run (the char
  after a maximal run is outside the class and `.` is inside it), so the
  engine's backtracking tries the dot position from the rightmost end of
  the run leftwards (`tryDomainSplit`);
- backtracking a `[A-Za-z]{2,}` TLD puts a letter at the separator
  position, where `[:\s]+` can never match, so shortening the TLD never
  helps and is not tried;
- backtracking the `[:\s]+` separator run can expose a `:` to the secret
  class `[^\s<]+` (`trySecretAt` tries separator lengths from the maximal
  run downwards);
- shortening `[A-Za-z0-9._%+-]+` leaves a local-class character where `@`
  is required, so the local part never backtracks either.
-/

/-- One credential pair as produced by the extraction regex
(`{email: match[1], password: match[2]}`). -/
structure CredPair where
  email : String
  password : String
deriving DecidableEq, Repr

/-- `[A-Za-z0-9._%+-]` (local part of the email). -/
def isLocalChar (c : Char) : Bool :=
  c.isAlphanum || c = '.' || c = '_' || c = '%' || c = '+' || c = '-'

/-- `[A-Za-z0-9.-]` (domain). -/
def isDomainChar (c : Char) : Bool :=
  c.isAlphanum || c = '.' || c = '-'

/-- JS `\s`: space, tab, line terminators and the Unicode space
separators recognised by the regex engine. -/
def isJsSpace (c : Char) : Bool :=
  c = ' ' || c = '\t' || c = '\n' || c.toNat = 11 || c.toNat = 12 ||
  c = '\r' || c.toNat = 0xa0 || c.toNat = 0x1680 ||
  (0x2000 ≤ c.toNat && c.toNat ≤ 0x200a) ||
  c.toNat = 0x2028 || c.toNat = 0x2029 || c.toNat = 0x202f ||
  c.toNat = 0x205f || c.toNat = 0x3000 || c.toNat = 0xfeff

/-- `[:\s]` (separator between email and password). -/
def isSepChar (c : Char) : Bool := c = ':' || isJsSpace c

/-- `[^\s<]` (password token). -/
def isSecretChar (c : Char) : Bool := !isJsSpace c && c ≠ '<'

/-- Maximal run of characters satisfying `p`: greedy `class+`/`class*`
matching.  Returns the run and the remaining characters. -/
def takeRun (p : Char → Bool) : List Char → List Char × List Char
  | [] => ([], [])
  | c :: cs =>
    if p c then
      let r := takeRun p cs
      (c :: r.1, r.2)
    else ([], c :: cs)

/-- Backtracking of the greedy `[:\s]+` run before `([^\s<]+)`: try
separator lengths `n, n-1, …, 1`; the secret is the maximal
`[^\s<]` run after the separator and must be non-empty. -/
def trySecretAt (sepRun after : List Char) : Nat → Option (List Char × List Char)
  | 0 => none
  | Nat.succ n =>
    let tail := sepRun.drop (n + 1) ++ after
    let sc := takeRun isSecretChar tail
    if sc.1 = [] then trySecretAt sepRun after n else some sc

/-- Backtracking of the greedy `[A-Za-z0-9.-]+` run before
`\.[A-Za-z]{2,}[:\s]+([^\s<]+)`: `d` is the maximal domain-class run and
`rest3` what follows it; try run lengths `n, n-1, …, 1`.  On success
returns (domain including dot and TLD, secret, rest after the match). -/
def tryDomainSplit (d rest3 : List Char) : Nat → Option (List Char × List Char × List Char)
  | 0 => none
  | Nat.succ n =>
    let tail := d.drop (n + 1) ++ rest3
    if tail.head? = some '.' then
      let afterDot := tail.tail
      let tc := takeRun Char.isAlpha afterDot
      if 2 ≤ tc.1.length then
        let sep := takeRun isSepChar tc.2
        if sep.1 = [] then tryDomainSplit d rest3 n
        else
          match trySecretAt sep.1 sep.2 sep.1.length with
          | some (secret, rest6) => some (d.take (n + 1) ++ '.' :: tc.1, secret, rest6)
          | none => tryDomainSplit d rest3 n
      else tryDomainSplit d rest3 n
    else tryDomainSplit d rest3 n

/-- Attempt to match the whole pattern at the start of `l`.  On success
returns (email = group 1, password = group 2, rest of the input after
the match). -/
def matchAt (l : List Char) : Option (List Char × List Char × List Char) :=
  let lp := takeRun isLocalChar l
  if lp.1 = [] then none
  else
    match lp.2 with
    | '@' :: rest2 =>
      let dm := takeRun isDomainChar rest2
      if dm.1 = [] then none
      else
        match tryDomainSplit dm.1 dm.2 dm.1.length with
        | some (domTld, secret, rest6) => some (lp.1 ++ '@' :: domTld, secret, rest6)
        | none => none
    | _ => none

/-- The `exec` loop with the `g` flag: find the leftmost match from the
current position, emit it, continue after it.  `fuel` bounds the number
of steps (each step either advances one character or consumes a whole
match, so `length + 1` steps suffice). -/
def execScan : Nat → List Char → List CredPair
  | 0, _ => []
  | _, [] => []
  | Nat.succ fuel, c :: cs =>
    match matchAt (c :: cs) with
    | some (email, secret, rest) =>
      { email := String.mk email, password := String.mk secret } :: execScan fuel rest
    | none => execScan fuel cs

/-- `parse(text)`: all email/password pairs extracted by the regex, in
encounter order.  Total: malformed input yields fewer pairs, never an
error. -/
def parse (text : String) : List CredPair :=
  execScan (text.length + 1) text.toList

/-! ## Deduplicator

`src/unnamed/part_003` lines 40–49 and `src/unnamed/part_000` lines
29–38: a `seenEmails` set and a loop pushing the pair only when its
email is unseen. -/

/-- The dedup loop with the set of already-seen emails made explicit. -/
def dedupGo (seen : List String) : List CredPair → List CredPair
  | [] => []
  | p :: rest =>
    if seen.contains p.email then dedupGo seen rest
    else p :: dedupGo (p.email :: seen) rest

/-- `uniqueAccounts`: drop every pair whose email was already seen. -/
def dedup (l : List CredPair) : List CredPair := dedupGo [] l

/-- Modelled from the spec's words, for comparison with `dedup`: "keeping
the first occurrence of each distinct identity and discarding later ones
regardless of whether the secret differs; order of first occurrence is
preserved". -/
def specFirstOccurrences : List CredPair → List CredPair
  | [] => []
  | p :: rest =>
    p :: specFirstOccurrences (rest.filter fun q => q.email ≠ p.email)
termination_by l => l.length
decreasing_by
  simp_wf
  exact Nat.lt_succ_of_le (List.length_filter_le _ _)

/-! ## Verification client

`src/pages/api/checkSingleAccount.js`: one login → getProfile → logout
cycle against `crunchyroll.js`, classified into a JSON response.  The
external service is modelled by the outcome of the login/profile calls:
either they threw (carrying the JS error's optional `code`, optional
`message`, and its `String(err)` rendering) or they produced a profile
payload, after which the logout either succeeds or fails. -/

/-- The profile payload fields the repository reads: `code` (error code
of a 200-equivalent failure), `username`, `email`. -/
structure ProfileObj where
  code : Option String
  username : Option String
  email : Option String
deriving DecidableEq, Repr

/-- Outcome of the external login/profile/logout calls for one
credential pair. -/
inductive LoginFlow where
  | threw (code : Option String) (message : Option String) (asString : String)
  | flowOk (profile : Option ProfileObj) (logoutFails : Bool)
deriving DecidableEq, Repr

/-- JS `profile && typeof profile === 'object' && profile.code`:
the payload is a non-null object whose `code` field is truthy. -/
def profileCodeTruthy : Option ProfileObj → Bool
  | some pr => strTruthy pr.code
  | none => false

/-- The JSON body of a `checkSingleAccount` response; `none` models a
field absent from the object. -/
structure CheckResponse where
  email : String
  password : String
  ok : Bool
  errorCode : Option String
  error : Option String
  profile : Option (Option ProfileObj)
deriving DecidableEq, Repr

/-- `src/pages/api/checkSingleAccount.js` lines 18–59: classification of
one check.  The logout result is never inspected (the `try { await
cr.logout() } catch { /* ignore */ }` swallows failures). -/
def checkSingleAccount (email password : String) (flow : LoginFlow) : CheckResponse :=
  match flow with
  | .flowOk profile _ =>
    if profileCodeTruthy profile then
      { email, password, ok := false,
        errorCode := profile.bind ProfileObj.code,
        error := profile.bind ProfileObj.code,
        profile := none }
    else
      { email, password, ok := true,
        errorCode := none, error := none, profile := some profile }
  | .threw c m s =>
    { email, password, ok := false,
      errorCode := c, error := some (jsStrOr m s), profile := none }

/-! ## Accounts and the page component's state updater -/

/-- One account object as built by the refresh cycle / page component. -/
structure Account where
  id : String
  email : String
  password : String
  label : String
  status : String
  profileName : Option String
  error : Option String
deriving DecidableEq, Repr

/-- `uniqueAccounts.map((pair, idx) => …)`: the fresh account for
position `idx` (0-based), labelled `Acc(idx+1)`, status `checking`. -/
def mkAccount (idx : Nat) (pair : CredPair) : Account :=
  { id := "Acc" ++ toString (idx + 1),
    email := pair.email,
    password := pair.password,
    label := "Acc" ++ toString (idx + 1),
    status := "checking",
    profileName := none,
    error := none }

/-- `findUsername` of `src/unnamed/part_000` lines 113–136, applied to a
response's `profile` field (absent, null, or a payload): first truthy
common field in priority order restricted to the payload fields modelled
(`username` before `email`); null/non-object yields null. -/
def findUsername : Option (Option ProfileObj) → Option String
  | some (some pr) =>
    if strTruthy pr.username then pr.username
    else if strTruthy pr.email then pr.email
    else none
  | _ => none

/-- `src/unnamed/part_003` lines 72–110: the per-account body of the
check loop.  `acc` is the account captured before the write; the slot is
replaced by a spread of `acc` with the classified status.  Note the
thrown branch stores `err.message || 'Login failed'` and never reads
`err.code`. -/
def checkStep (acc : Account) (flow : LoginFlow) : Account :=
  match flow with
  | .flowOk profile _ =>
    if profileCodeTruthy profile then
      { acc with status := "invalid", profileName := none,
                 error := profile.bind ProfileObj.code }
    else
      { acc with status := "valid",
                 profileName := some (jsStrOr (profile.bind ProfileObj.username)
                   (jsStrOr (profile.bind ProfileObj.email) acc.label)),
                 error := none }
  | .threw _ m _ =>
    { acc with status := "invalid", profileName := none,
               error := some (jsStrOr m "Login failed") }

/-- `src/unnamed/part_000` lines 751–820 (`checkAccount`): the
`setAccounts` updater applied when the response for `(index,
checkingEmail)` arrives.  `result` is the parsed JSON (`none` = null).
The update is discarded when the slot is missing or its email no longer
equals the email that was submitted. -/
def applyCheckResult (prev : List Account) (index : Nat) (checkingEmail : String)
    (result : Option CheckResponse) : List Account :=
  match prev.get? index with
  | none => prev
  | some accAtIdx =>
    if accAtIdx.email ≠ checkingEmail then prev
    else
      match result with
      | none =>
        prev.set index
          { accAtIdx with status := "invalid", profileName := none,
                          error := some "No response" }
      | some r =>
        if r.ok then
          prev.set index
            { accAtIdx with status := "valid",
                            profileName := some (jsStrOr (findUsername r.profile) accAtIdx.label),
                            error := none }
        else
          prev.set index
            { accAtIdx with status := "invalid", profileName := none,
                            error := jsOptOr r.errorCode r.error }

/-! ## The snapshot cache endpoint (`src/unnamed/part_003`) -/

/-- The module-level `cachedData` object.  `lastChecked` is the stored
timestamp in epoch milliseconds (the source stores an ISO string and
compares via `Date` subtraction). -/
structure CachedData where
  accounts : Option (List Account)
  lastChecked : Option Int
  isChecking : Bool
deriving DecidableEq, Repr

/-- Lines 16–21 of `fetchAndCheckAccounts`: the synchronous prologue
before its first `await` — the single-flight guard and the setting of
`isChecking`.  Returns the new state and whether a cycle was started.
JS runs this atomically: a fire-and-forget call executes it to
completion before any other task can interleave. -/
def beginRefresh (c : CachedData) : CachedData × Bool :=
  if c.isChecking then (c, false)
  else ({ c with isChecking := true }, true)

/-- A burst of `n` refresh triggers delivered back-to-back (the JS event
loop serialises their prologues).  Returns the resulting state and how
many of the triggers actually started a cycle. -/
def triggerBurst : Nat → CachedData → CachedData × Nat
  | 0, c => (c, 0)
  | Nat.succ n, c =>
    let s := beginRefresh c
    let r := triggerBurst n s.1
    (r.1, (if s.2 then 1 else 0) + r.2)

/-- `fetchAndCheckAccounts` (lines 15–124) as a function of the cache
state, the outcome of the source fetch (`Except.error` = the fetch or
body read threw), the login outcomes for each account position, and the
current time.  On fetch failure the `catch`/`finally` leave the cache
untouched except for clearing `isChecking`.  On success the accounts and
`lastChecked` are set, then every position is checked in order (slot `i`
is written exactly once, from the account captured before the write). -/
def fetchAndCheckAccounts (c : CachedData) (fetchResult : Except String String)
    (flows : Nat → LoginFlow) (now : Int) : CachedData :=
  if c.isChecking then c
  else
    match fetchResult with
    | .error _ => { c with isChecking := false }
    | .ok html =>
      let pairs := dedup (parse html)
      let newAccounts := pairs.mapIdx mkAccount
      let checked := newAccounts.mapIdx fun i a => checkStep a (flows i)
      { accounts := some checked, lastChecked := some now, isChecking := false }

/-- `15 * 60 * 1000` milliseconds. -/
def FIFTEEN_MINUTES : Int := 15 * 60 * 1000

/-- `!cachedData.lastChecked || !cachedData.accounts` (line 134). -/
def cacheEmpty (c : CachedData) : Bool :=
  c.lastChecked.isNone || c.accounts.isNone

/-- The JSON body returned by the GET handler of `src/unnamed/part_003`. -/
structure HandlerResponse where
  accounts : List Account
  lastChecked : Option Int
  isChecking : Bool
deriving DecidableEq, Repr

/-- The GET `handler` (lines 126–160).  Returns the cache state after the
synchronous prologue of any fire-and-forget `fetchAndCheckAccounts()`
call, the response body, and whether `fetchAndCheckAccounts` was
invoked.  In the stale branch the response reads `cachedData` after the
prologue has set `isChecking`. -/
def handler (c : CachedData) (now : Int) : CachedData × HandlerResponse × Bool :=
  if cacheEmpty c then
    ((beginRefresh c).1, { accounts := [], lastChecked := none, isChecking := true }, true)
  else
    if FIFTEEN_MINUTES ≤ now - c.lastChecked.getD 0 && !c.isChecking then
      let c1 := (beginRefresh c).1
      (c1, { accounts := c1.accounts.getD [], lastChecked := c1.lastChecked,
             isChecking := c1.isChecking }, true)
    else
      (c, { accounts := c.accounts.getD [], lastChecked := c.lastChecked,
            isChecking := c.isChecking }, false)

/-! ## The plain cache endpoint (`src/pages/api/cache.js`) -/

/-- The endpoint's module cache: `{accounts: null, lastChecked: null}`
initially.  `lastChecked` is stored verbatim as a string. -/
structure SimpleCache where
  accounts : Option (List Account)
  lastChecked : Option String
deriving DecidableEq, Repr

/-- A POST body.  Outer `none` = the key is absent (`undefined`); inner
`Option` = the transmitted value, which may itself be `null`. -/
structure CachePostBody where
  accounts : Option (Option (List Account))
  lastChecked : Option (Option String)
deriving DecidableEq, Repr

/-- The POST branch of `src/pages/api/cache.js` lines 16–27: each field
is replaced only when present (`!== undefined`); the response reports
the resulting cache (`{success: true, data: cachedData}`). -/
def cachePost (c : SimpleCache) (b : CachePostBody) : SimpleCache × SimpleCache :=
  let c1 := match b.accounts with
    | none => c
    | some v => { c with accounts := v }
  let c2 := match b.lastChecked with
    | none => c1
    | some v => { c1 with lastChecked := v }
  (c2, c2)
/-! ## Helper lemmas -/

/-- A burst of triggers on a cache whose cycle is active changes nothing
and starts nothing. -/
theorem triggerBurst_of_checking (n : Nat) (c : CachedData) (h : c.isChecking = true) :
    triggerBurst n c = (c, 0) := by
  induction n with
  | zero => rfl
  | succ n ih =>
    simp [triggerBurst, beginRefresh, h, ih]

/-- The dedup loop agrees with the spec-side first-occurrence filter,
for any set of already-seen emails. -/
theorem dedupGo_eq_specFirstOccurrences (l : List CredPair) : ∀ seen : List String,
    dedupGo seen l = specFirstOccurrences (l.filter fun q => decide (q.email ∉ seen)) := by
  induction l with
  | nil => intro _; simp [dedupGo, specFirstOccurrences]
  | cons p rest ih =>
    intro seen
    by_cases h : p.email ∈ seen
    · simp [dedupGo, h, ih seen]
    · have hfilter :
          ((rest.filter fun q => decide (q.email ∉ seen)).filter fun q => decide (q.email ≠ p.email))
            = rest.filter fun q => decide (q.email ∉ p.email :: seen) := by
        rw [List.filter_filter]
        apply List.filter_congr
        intro q _
        by_cases h1 : q.email = p.email <;> by_cases h2 : q.email ∈ seen <;>
          simp [h1, h2]
      simp [dedupGo, h, ih (p.email :: seen), specFirstOccurrences, hfilter]

/-! ## Claims -/

/-- C1 — Single-flight refresh: when a refresh cycle is already in
progress (`isChecking = true`), every trigger of `fetchAndCheckAccounts`
is a no-op, so a burst of `n` concurrent triggers starts zero new
cycles and leaves the cache unchanged (only the already-active cycle's
pipeline runs); from an idle cache, a burst of `n ≥ 1` triggers starts
exactly one cycle. -/
theorem singleFlightRefresh (n : Nat) (c : CachedData) :
    (c.isChecking = true → triggerBurst n c = (c, 0))
    ∧ (c.isChecking = false → 1 ≤ n → (triggerBurst n c).2 = 1) := by
  constructor
  · intro h
    exact triggerBurst_of_checking n c h
  · intro h hn
    match n, hn with
    | Nat.succ m, _ =>
      have hstep : beginRefresh c = ({ c with isChecking := true }, true) := by
        simp [beginRefresh, h]
      simp [triggerBurst, hstep, triggerBurst_of_checking m { c with isChecking := true } rfl]

/-- Witness for C1 at a concrete state: with a cycle active, three
triggers start nothing and change nothing; idle, three triggers start
exactly one cycle. -/
theorem singleFlightRefresh_witness :
    (triggerBurst 3 { accounts := none, lastChecked := none, isChecking := true }
        = ({ accounts := none, lastChecked := none, isChecking := true }, 0))
    ∧ (triggerBurst 3 { accounts := none, lastChecked := none, isChecking := false }).2 = 1 :=
  ⟨(singleFlightRefresh 3 { accounts := none, lastChecked := none, isChecking := true }).1 rfl,
   (singleFlightRefresh 3 { accounts := none, lastChecked := none, isChecking := false }).2 rfl
     (by decide)⟩

/-- C5 — Fetch-failure atomicity: when the source fetch throws during a
refresh cycle (entered with `isChecking = false`), the cycle leaves the
previously cached accounts and `lastChecked` unchanged and clears the
in-progress flag, so a later due read can retry. -/
theorem fetchFailureAtomicity (c : CachedData) (e : String) (flows : Nat → LoginFlow)
    (now : Int) (h : c.isChecking = false) :
    fetchAndCheckAccounts c (Except.error e) flows now = c
    ∧ (fetchAndCheckAccounts c (Except.error e) flows now).isChecking = false := by
  have : fetchAndCheckAccounts c (Except.error e) flows now = c := by
    cases c with
    | mk accounts lastChecked isChecking =>
      simp at h
      simp [fetchAndCheckAccounts, h]
  exact ⟨this, by rw [this]; exact h⟩

/-- Witness for C5: a populated idle cache hit by a fetch error keeps its
account list and timestamp and ends not-checking. -/
theorem fetchFailureAtomicity_witness :
    fetchAndCheckAccounts { accounts := some [], lastChecked := some 42, isChecking := false }
        (Except.error "fetch failed") (fun _ => LoginFlow.threw none none "Error") 99999
      = { accounts := some [], lastChecked := some 42, isChecking := false } :=
  (fetchFailureAtomicity { accounts := some [], lastChecked := some 42, isChecking := false }
    "fetch failed" (fun _ => LoginFlow.threw none none "Error") 99999 rfl).1

/-- C8 — Deduplication keeps exactly the first occurrence of each
distinct email, in first-occurrence order (even when later secrets
differ): `dedup` coincides with the spec-side first-occurrence filter on
every input, and on `[(a,p1),(a,p2),(b,p3)]` yields `[(a,p1),(b,p3)]`. -/
theorem dedupKeepsFirstOccurrences :
    (∀ l : List CredPair, dedup l = specFirstOccurrences l)
    ∧ dedup [⟨"a", "p1"⟩, ⟨"a", "p2"⟩, ⟨"b", "p3"⟩] = [⟨"a", "p1"⟩, ⟨"b", "p3"⟩] := by
  constructor
  · intro l
    have h := dedupGo_eq_specFirstOccurrences l []
    simpa [dedup] using h
  · decide

/-- C9 — Parser on the spec's concrete input: the two email/password
pairs are extracted in order, the surrounding tokens `foo` and `baz` are
ignored, and `parse` is total (no error is raised). -/
theorem parseConcreteScenario :
    parse "foo bar@x.com:Secr3t! baz qux@y.com qux2y2pw"
      = [{ email := "bar@x.com", password := "Secr3t!" },
         { email := "qux@y.com", password := "qux2y2pw" }] := by
  decide

/-- C2 — TTL gating of the GET handler: the response always reports the
current cached data (the empty representation `([], null, true)` when
the cache is empty, the cached accounts and timestamp verbatim
otherwise), and `fetchAndCheckAccounts` is invoked exactly when the
cache is empty or when at least 15 minutes have elapsed since
`lastChecked` and no refresh is in progress; with a populated cache less
than 15 minutes old, no refresh is invoked. -/
theorem ttlGating (c : CachedData) (now : Int) :
    ((handler c now).2.2 = true ↔
      (cacheEmpty c = true
        ∨ (FIFTEEN_MINUTES ≤ now - c.lastChecked.getD 0 ∧ c.isChecking = false)))
    ∧ (cacheEmpty c = true →
        (handler c now).2.1 = { accounts := [], lastChecked := none, isChecking := true })
    ∧ (cacheEmpty c = false →
        (handler c now).2.1.accounts = c.accounts.getD []
          ∧ (handler c now).2.1.lastChecked = c.lastChecked)
    ∧ (cacheEmpty c = false → now - c.lastChecked.getD 0 < FIFTEEN_MINUTES →
        (handler c now).2.2 = false) := by
  by_cases h1 : cacheEmpty c
  · simp [handler, h1]
  · by_cases h2 : FIFTEEN_MINUTES ≤ now - c.lastChecked.getD 0
    · by_cases h3 : c.isChecking
      · simp [handler, h1, h2, h3]
      · simp [handler, beginRefresh, h1, h2, h3]
    · simp [handler, h1, h2]

/-- Witness for C2: a cache refreshed 20 minutes ago and idle invokes a
refresh; refreshed 5 minutes ago it invokes none and echoes its data. -/
theorem ttlGating_witness :
    (handler { accounts := some [], lastChecked := some 0, isChecking := false }
        (20 * 60 * 1000)).2.2 = true
    ∧ (handler { accounts := some [], lastChecked := some 0, isChecking := false }
        (5 * 60 * 1000)).2.2 = false
    ∧ (handler { accounts := some [], lastChecked := some 0, isChecking := false }
        (5 * 60 * 1000)).2.1.lastChecked = some 0 :=
  ⟨(ttlGating { accounts := some [], lastChecked := some 0, isChecking := false }
      (20 * 60 * 1000)).1.mpr (Or.inr ⟨by decide, rfl⟩),
   (ttlGating { accounts := some [], lastChecked := some 0, isChecking := false }
      (5 * 60 * 1000)).2.2.2 rfl (by decide),
   ((ttlGating { accounts := some [], lastChecked := some 0, isChecking := false }
      (5 * 60 * 1000)).2.2.1 rfl).2⟩

/-- C3 — Identity-mismatch suppression in `checkAccount`'s updater: a
result delivered for position `i` is applied only when the account now
at index `i` still carries the submitted email; when the slot is gone or
its email differs the list is returned unchanged, and in every case no
slot other than `i` is modified and the length is preserved. -/
theorem identityMismatchSuppression (prev : List Account) (i : Nat) (em : String)
    (r : Option CheckResponse) :
    ((∀ a, prev.get? i = some a → a.email ≠ em) → applyCheckResult prev i em r = prev)
    ∧ (applyCheckResult prev i em r).length = prev.length
    ∧ (∀ j, j ≠ i → (applyCheckResult prev i em r).get? j = prev.get? j) := by
  unfold applyCheckResult
  cases hg : prev.get? i with
  | none => simp
  | some a =>
    by_cases he : a.email = em
    · refine ⟨fun h => absurd he (h a rfl), ?_, ?_⟩
      · simp only [he, ne_eq, not_true_eq_false, if_false]
        cases r with
        | none => simp
        | some resp => by_cases ho : resp.ok <;> simp [ho]
      · intro j hj
        simp only [he, ne_eq, not_true_eq_false, if_false]
        cases r with
        | none => exact List.get?_set_ne _ _ (fun h => hj h.symm)
        | some resp =>
          by_cases ho : resp.ok <;> simp only [ho, if_true, if_false] <;>
            exact List.get?_set_ne _ _ (fun h => hj h.symm)
    · simp [he]

/-- Witness for C3: a stale result for old email `old@x.com` arriving at
index 0, whose slot is now occupied by `new@x.com`, leaves the list
unchanged. -/
theorem identityMismatchSuppression_witness :
    applyCheckResult [mkAccount 0 ⟨"new@x.com", "pw"⟩] 0 "old@x.com"
        (some { email := "old@x.com", password := "pw", ok := true,
                errorCode := none, error := none, profile := none })
      = [mkAccount 0 ⟨"new@x.com", "pw"⟩] :=
  (identityMismatchSuppression [mkAccount 0 ⟨"new@x.com", "pw"⟩] 0 "old@x.com"
    (some { email := "old@x.com", password := "pw", ok := true,
            errorCode := none, error := none, profile := none })).1
    (by intro a ha; cases ha; decide)

/-- C6 — Success-path classification: once login and profile fetch have
succeeded, both the single-account endpoint and the refresh cycle's
check step classify by the JS test `profile && profile.code` ("the
payload carries a (truthy) code field"): a carried code gives a failed
check whose error code is the profile's code, otherwise the check
succeeds; and the result never depends on whether the subsequent logout
failed. -/
theorem successPathClassification (email password : String) (profile : Option ProfileObj)
    (lf lf' : Bool) :
    (checkSingleAccount email password (LoginFlow.flowOk profile lf)
      = checkSingleAccount email password (LoginFlow.flowOk profile lf'))
    ∧ (profileCodeTruthy profile = true →
        (checkSingleAccount email password (LoginFlow.flowOk profile lf)).ok = false
          ∧ (checkSingleAccount email password (LoginFlow.flowOk profile lf)).errorCode
              = profile.bind ProfileObj.code)
    ∧ (profileCodeTruthy profile = false →
        (checkSingleAccount email password (LoginFlow.flowOk profile lf)).ok = true)
    ∧ (∀ acc : Account,
        checkStep acc (LoginFlow.flowOk profile lf) = checkStep acc (LoginFlow.flowOk profile lf'))
    ∧ (∀ acc : Account, profileCodeTruthy profile = true →
        (checkStep acc (LoginFlow.flowOk profile lf)).status = "invalid"
          ∧ (checkStep acc (LoginFlow.flowOk profile lf)).error = profile.bind ProfileObj.code)
    ∧ (∀ acc : Account, profileCodeTruthy profile = false →
        (checkStep acc (LoginFlow.flowOk profile lf)).status = "valid") := by
  by_cases hp : profileCodeTruthy profile <;>
    simp [checkSingleAccount, checkStep, hp]

/-- Witness for C6: a profile carrying code `invalid_auth_token` is
classified invalid with that code whether or not the logout failed. -/
theorem successPathClassification_witness :
    (checkSingleAccount "bar@x.com" "pw"
        (LoginFlow.flowOk (some ⟨some "invalid_auth_token", none, none⟩) true)
      = checkSingleAccount "bar@x.com" "pw"
        (LoginFlow.flowOk (some ⟨some "invalid_auth_token", none, none⟩) false))
    ∧ (checkSingleAccount "bar@x.com" "pw"
        (LoginFlow.flowOk (some ⟨some "invalid_auth_token", none, none⟩) true)).ok = false
    ∧ (checkSingleAccount "bar@x.com" "pw"
        (LoginFlow.flowOk (some ⟨some "invalid_auth_token", none, none⟩) true)).errorCode
        = some "invalid_auth_token" := by
  have h := successPathClassification "bar@x.com" "pw"
    (some ⟨some "invalid_auth_token", none, none⟩) true false
  exact ⟨h.1, (h.2.1 (by decide)).1, (h.2.1 (by decide)).2⟩

/-- C7, counterexample — the claim "errorCode equals the thrown error's
code when the error has one, and the error's message otherwise" fails on
the code: the refresh cycle of `src/unnamed/part_003` stores the
*message* `HTTP 403` even though the error carries code `bad_token`, and
the single-account endpoint leaves `errorCode` absent (not the message)
when the error has no code. -/
theorem thrownPathClaim_counterexample :
    (checkStep (mkAccount 0 ⟨"bar@x.com", "pw"⟩)
        (LoginFlow.threw (some "bad_token") (some "HTTP 403") "Error: HTTP 403")).error
      = some "HTTP 403"
    ∧ some "HTTP 403" ≠ some "bad_token"
    ∧ (checkSingleAccount "bar@x.com" "pw"
        (LoginFlow.threw none (some "conn reset") "Error: conn reset")).errorCode = none
    ∧ (none : Option String) ≠ some "conn reset" := by
  refine ⟨rfl, by decide, rfl, by decide⟩

/-- C7, amended — Thrown-error classification: neither path propagates
the error.  The single-account endpoint returns `ok=false` with
`errorCode` equal to the thrown error's code field (absent when the
error has none) and a separate `error` field equal to the error's
message, or its string rendering when the message is absent or empty (a
consumer reading `errorCode || error` therefore obtains the code when
truthy and the message otherwise); the refresh cycle of
`src/unnamed/part_003` marks the account `invalid` with its `error`
field set to the error's message, or `Login failed` when the message is
absent or empty, ignoring any code the error carries. -/
theorem thrownPathClassification (email password : String) (c m : Option String)
    (s : String) (acc : Account) :
    (checkSingleAccount email password (LoginFlow.threw c m s)).ok = false
    ∧ (checkSingleAccount email password (LoginFlow.threw c m s)).errorCode = c
    ∧ (checkSingleAccount email password (LoginFlow.threw c m s)).error = some (jsStrOr m s)
    ∧ jsOptOr (checkSingleAccount email password (LoginFlow.threw c m s)).errorCode
        (checkSingleAccount email password (LoginFlow.threw c m s)).error
        = jsOptOr c (some (jsStrOr m s))
    ∧ (checkStep acc (LoginFlow.threw c m s)).status = "invalid"
    ∧ (checkStep acc (LoginFlow.threw c m s)).error = some (jsStrOr m "Login failed") := by
  simp [checkSingleAccount, checkStep]

/-- C4, counterexample — the claim "the snapshot response never carries
the secret/password field" fails on the code: the GET handler of
`src/unnamed/part_003` returns the cached account objects verbatim, so
the stored password `hunter2` appears in the response body. -/
theorem snapshotResponseLeaksSecret :
    ((handler
        { accounts := some [{ id := "Acc1", email := "bar@x.com", password := "hunter2",
                              label := "Acc1", status := "valid",
                              profileName := some "Bar", error := none }],
          lastChecked := some 0, isChecking := false }
        1000).2.1.accounts.map Account.password) = ["hunter2"] := by
  decide

/-- C4, amended — the snapshot response returns the cached account
objects verbatim, every stored field included (`id`, `email`,
`password`, `label`, `status`, `profileName`, `error`): whenever the
cache is populated, the response's account list is exactly the cached
list, so each response account carries the account's password. -/
theorem snapshotResponseVerbatim (c : CachedData) (now : Int)
    (h : cacheEmpty c = false) :
    (handler c now).2.1.accounts = c.accounts.getD [] := by
  by_cases h2 : FIFTEEN_MINUTES ≤ now - c.lastChecked.getD 0 <;>
    by_cases h3 : c.isChecking <;>
      simp [handler, beginRefresh, h, h2, h3]

/-- Witness for the amended C4: a populated cache's response echoes its
single stored account, password included. -/
theorem snapshotResponseVerbatim_witness :
    (handler
        { accounts := some [{ id := "Acc1", email := "bar@x.com", password := "hunter2",
                              label := "Acc1", status := "valid",
                              profileName := some "Bar", error := none }],
          lastChecked := some 0, isChecking := false }
        1000).2.1.accounts
      = [{ id := "Acc1", email := "bar@x.com", password := "hunter2",
           label := "Acc1", status := "valid",
           profileName := some "Bar", error := none }] :=
  snapshotResponseVerbatim
    { accounts := some [{ id := "Acc1", email := "bar@x.com", password := "hunter2",
                          label := "Acc1", status := "valid",
                          profileName := some "Bar", error := none }],
      lastChecked := some 0, isChecking := false }
    1000 rfl

/-- C10 — Partial-update frame property of the cache write endpoint: a
POSTed field replaces the cached field exactly when it is present in the
body (even as `null`); an omitted field keeps its cached value; the
response reports the resulting cache state. -/
theorem cachePostPartialUpdate (c : SimpleCache) (b : CachePostBody) :
    (b.accounts = none → (cachePost c b).1.accounts = c.accounts)
    ∧ (∀ v, b.accounts = some v → (cachePost c b).1.accounts = v)
    ∧ (b.lastChecked = none → (cachePost c b).1.lastChecked = c.lastChecked)
    ∧ (∀ v, b.lastChecked = some v → (cachePost c b).1.lastChecked = v)
    ∧ (cachePost c b).2 = (cachePost c b).1 := by
  cases hb : b.accounts <;> cases hl : b.lastChecked <;>
    simp [cachePost, hb, hl]

/-- Witness for C10: posting only `lastChecked` keeps the cached
accounts and replaces the timestamp; the response reports the result. -/
theorem cachePostPartialUpdate_witness :
    (cachePost { accounts := some [], lastChecked := some "old" }
        { accounts := none, lastChecked := some (some "new") }).1.accounts = some []
    ∧ (cachePost { accounts := some [], lastChecked := some "old" }
        { accounts := none, lastChecked := some (some "new") }).1.lastChecked = some "new" := by
  have h := cachePostPartialUpdate { accounts := some [], lastChecked := some "old" }
    { accounts := none, lastChecked := some (some "new") }
  exact ⟨h.1 rfl, h.2.2.2.1 (some "new") rfl⟩
